import Mathlib

/-!
Shallow embedding of the SSD1306 1-bit direct-draw layer declared in
`src/components/ssd1306/src/ssd1306_1bit.h`.  The repository ships only the
header (declarations and doc comments); every function body lives outside
`src/`, so each operation below is modelled from the specification's words
(spec.md sections 3, 4 and 8) together with the header's own doc comments.

The device is a page-organised, write-only byte sink: display memory is a
grid of bytes indexed by (page, column), where each byte holds 8 vertically
stacked pixels (bit 0 = top).  A global draw mode inverts outgoing bytes in
Negative mode.  A transient cursor addresses the next column write.
-/

namespace SSD1306

/-- Modelled from the spec: DrawMode is a global enum {Positive, Negative}
affecting every subsequent write until changed (spec.md section 3). -/
inductive EDrawMode
  | Positive
  | Negative
  deriving DecidableEq, Repr

/-- Modelled from the spec: DisplayGeometry holds width/height in pixels;
the page count is height/8 (spec.md section 3). -/
structure Geometry where
  width : Nat
  height : Nat
  deriving DecidableEq, Repr

/-- Number of 8-pixel-tall pages of the display. -/
def Geometry.pages (g : Geometry) : Nat := g.height / 8

/-- Modelled from the spec: the process-wide device state — display memory
as a byte grid indexed by (page, column), the global draw mode, and the
transient column/page cursor (spec.md sections 3 and 4.1). -/
structure DisplayState where
  mem : Nat → Nat → Nat
  mode : EDrawMode
  curX : Nat
  curPage : Nat
  geom : Geometry

/-- Bitwise inversion of an 8-bit byte (the effect of Negative draw mode). -/
def invertByte (b : Nat) : Nat := Nat.xor (b % 256) 255

/-- Modelled from the spec: in Negative mode an outgoing byte is
bitwise-inverted before transmission; in Positive mode it is sent
unmodified (spec.md section 4.2).  Both cases reduce modulo 256 because the
transmitted value is a uint8_t. -/
def applyMode : EDrawMode → Nat → Nat
  | EDrawMode.Positive, b => b % 256
  | EDrawMode.Negative, b => invertByte b

/-- Modelled from the spec: `ssd1306_setPos(x, y)` sets the cursor to
column x, page y; the body is not under src/ (header lines 55-60,
spec.md section 4.1). -/
def ssd1306_setPos (x y : Nat) (st : DisplayState) : DisplayState :=
  { st with curX := x, curPage := y }

/-- Modelled from the spec: `writeColumn(pixels8)` transmits one byte of 8
vertical pixels at the current cursor after applying the draw mode, then
advances the cursor by one column (spec.md section 4.2); the Byte-Plane
Writer body is not under src/. -/
def writeColumn (b : Nat) (st : DisplayState) : DisplayState :=
  { st with
    mem := fun p c =>
      if p = st.curPage ∧ c = st.curX then applyMode st.mode b else st.mem p c,
    curX := st.curX + 1 }

/-- Modelled from the spec: `ssd1306_negativeMode` switches all drawing
functions to negative mode; the old picture on the display remains
unchanged (header lines 72-76); body not under src/. -/
def ssd1306_negativeMode (st : DisplayState) : DisplayState :=
  { st with mode := EDrawMode.Negative }

/-- Modelled from the spec: `ssd1306_positiveMode` switches all drawing
functions back to positive (default) mode; the old picture on the display
remains unchanged (header lines 78-82); body not under src/. -/
def ssd1306_positiveMode (st : DisplayState) : DisplayState :=
  { st with mode := EDrawMode.Positive }

/-- Modelled from the spec: `ssd1306_putPixel(x, y)` computes the
containing byte-column (page y/8) and the bit position (y%8), and writes a
single-bit-set byte through the Byte-Plane Writer — clobbering the other 7
pixels sharing that byte, since the device cannot be read back (header
lines 207-219, spec.md section 4.3); body not under src/. -/
def ssd1306_putPixel (x y : Nat) (st : DisplayState) : DisplayState :=
  writeColumn (1 <<< (y % 8)) (ssd1306_setPos x (y / 8) st)

/-- Modelled from the spec: `ssd1306_fillScreen(fill_Data)` fills the whole
display memory with the pattern byte (header lines 62-65); body not under
src/. -/
def ssd1306_fillScreen (fill : Nat) (st : DisplayState) : DisplayState :=
  { st with
    mem := fun p c =>
      if p < st.geom.pages ∧ c < st.geom.width then fill % 256 else st.mem p c }

/-- Modelled from the spec: `ssd1306_clearScreen` fills the screen with the
zero byte (header lines 67-70); body not under src/. -/
def ssd1306_clearScreen (st : DisplayState) : DisplayState :=
  { st with
    mem := fun p c =>
      if p < st.geom.pages ∧ c < st.geom.width then 0 else st.mem p c }

/-- A concrete 128x64 state used by witnesses. -/
def initState : DisplayState :=
  { mem := fun _ _ => 0
    mode := EDrawMode.Positive
    curX := 0
    curPage := 0
    geom := { width := 128, height := 64 } }

/-- Modelled from the spec: `ssd1306_drawHLine(x1, y1, x2)` iterates the
columns x1..x2 (swapping if reversed, clipping to the display width) at the
fixed page row y1/8, writing the single relevant bit per byte-column
through the draw mode (header lines 260-266, spec.md section 4.3); body not
under src/. -/
def ssd1306_drawHLine (x1 y1 x2 : Nat) (st : DisplayState) : DisplayState :=
  { st with
    mem := fun p c =>
      if p = y1 / 8 ∧ min x1 x2 ≤ c ∧ c ≤ max x1 x2 ∧ c < st.geom.width then
        applyMode st.mode (1 <<< (y1 % 8))
      else st.mem p c }

/-- The minor-axis offset after i major-axis steps of Bresenham-style
tracing with minor delta `num` and major delta `den`: the midpoint rounding
(2*i*num + den) / (2*den), the closed form of incremental
error-accumulation. -/
def lineStep (num den i : Nat) : Nat := (2 * i * num + den) / (2 * den)

/-- Modelled from the spec: the i-th pixel plotted by `ssd1306_drawLine`'s
Bresenham-style tracing from (x1,y1) toward (x2,y2): the major axis
advances one pixel per step, the minor axis follows the accumulated-error
rounding (spec.md section 4.3); the drawLine body is not under src/. -/
def linePoint (x1 y1 x2 y2 : Int) (i : Nat) : Int × Int :=
  if (y2 - y1).natAbs ≤ (x2 - x1).natAbs then
    ((if x1 ≤ x2 then x1 + i else x1 - i),
     (if y1 ≤ y2 then y1 + lineStep (y2 - y1).natAbs (x2 - x1).natAbs i
      else y1 - lineStep (y2 - y1).natAbs (x2 - x1).natAbs i))
  else
    ((if x1 ≤ x2 then x1 + lineStep (x2 - x1).natAbs (y2 - y1).natAbs i
      else x1 - lineStep (x2 - x1).natAbs (y2 - y1).natAbs i),
     (if y1 ≤ y2 then y1 + i else y1 - i))

/-- Modelled from the spec: the full pixel list plotted by
`ssd1306_drawLine(x1,y1,x2,y2)`: max(|dx|,|dy|)+1 points from the start
point to the end point (spec.md section 4.3). -/
def linePoints (x1 y1 x2 y2 : Int) : List (Int × Int) :=
  (List.range (max (x2 - x1).natAbs (y2 - y1).natAbs + 1)).map
    (linePoint x1 y1 x2 y2)

/-- Modelled from the spec: `ssd1306_drawLine(x1,y1,x2,y2)` plots each
traced pixel through the destructive single-pixel write (header lines
246-258, spec.md section 4.3); body not under src/. -/
def ssd1306_drawLine (x1 y1 x2 y2 : Nat) (st : DisplayState) : DisplayState :=
  (linePoints x1 y1 x2 y2).foldl
    (fun s pt => ssd1306_putPixel pt.1.toNat pt.2.toNat s) st

/-- Modelled from the spec: `ssd1306_drawBuffer(x, y, w, h, buf)` bulk-copies
the caller's byte array, one byte per 8-pixel vertical strip, w bytes per
page row over h/8 page rows starting at (column x, page y), applying the
draw mode to each outgoing byte (header lines 276-292, spec.md section
4.3); body not under src/. -/
def ssd1306_drawBuffer (x y w h : Nat) (buf : Nat → Nat) (st : DisplayState) :
    DisplayState :=
  { st with
    mem := fun p c =>
      if y ≤ p ∧ p < y + h / 8 ∧ x ≤ c ∧ c < x + w then
        applyMode st.mode (buf ((p - y) * w + (c - x)))
      else st.mem p c }

/-- Modelled from the spec: `ssd1306_drawBufferFast(x, y, w, h, buf)` is the
fast bulk copy using pixel-unit y addressing (page y/8) that skips the
negative draw-mode handling, sending each byte unmodified (header lines
294-312, spec.md section 4.3); body not under src/. -/
def ssd1306_drawBufferFast (x y w h : Nat) (buf : Nat → Nat)
    (st : DisplayState) : DisplayState :=
  { st with
    mem := fun p c =>
      if y / 8 ≤ p ∧ p < y / 8 + h / 8 ∧ x ≤ c ∧ c < x + w then
        buf ((p - y / 8) * w + (c - x)) % 256
      else st.mem p c }

/-- Modelled from the spec: `ssd1306_clearBlock(x, y, w, h)` fills the
w-column, h/8-page block at (column x, page y) with black (zero) pixels,
erasing a bitmap region (header lines 341-349, spec.md section 4.3); body
not under src/. -/
def ssd1306_clearBlock (x y w h : Nat) (st : DisplayState) : DisplayState :=
  { st with
    mem := fun p c =>
      if y ≤ p ∧ p < y + h / 8 ∧ x ≤ c ∧ c < x + w then 0 else st.mem p c }

/-- Modelled from the spec: the EFontStyle enum {Normal, Bold, Italic} of
nano_gfx_types.h, which is not under src/ (spec.md section 3). -/
inductive EFontStyle
  | Normal
  | Bold
  | Italic
  deriving DecidableEq, Repr

/-- Modelled from the spec: the active fixed-font descriptor — glyph width,
glyph height (a multiple of 8) and the read-only glyph byte table, indexed
by style, character code and column (spec.md section 3); nano_gfx_types.h
is not under src/. -/
structure SFixedFontInfo where
  glyphWidth : Nat
  glyphHeight : Nat
  glyphData : EFontStyle → Nat → Nat → Nat

/-- Pixel (row i, column j) of a glyph: bit i of the j-th column byte. -/
def glyphPixel (f : SFixedFontInfo) (style : EFontStyle) (ch i j : Nat) : Bool :=
  Nat.testBit (f.glyphData style ch j) i

/-- Packs 8 vertical pixels (bit 0 = top) into one column byte. -/
def byteOfBits (g : Nat → Bool) : Nat :=
  (List.range 8).foldl (fun acc b => acc + (if g b then 2 ^ b else 0)) 0

/-- Modelled from the spec: the scaled glyph bitmap — each source pixel is
replicated into a (factor+1)-sized square block, re-packed as column bytes
for the buffer-draw path (spec.md section 4.4). -/
def scaledGlyphBuf (f : SFixedFontInfo) (style : EFontStyle) (ch factor : Nat) :
    Nat → Nat :=
  fun idx =>
    let w := f.glyphWidth * (factor + 1)
    byteOfBits (fun b =>
      glyphPixel f style ch (((idx / w) * 8 + b) / (factor + 1))
        ((idx % w) / (factor + 1)))

/-- Control characters LF and CR are skipped, not rendered. -/
def isSkippedChar (ch : Nat) : Bool := ch == 10 || ch == 13

/-- Modelled from the spec: the character loop of `ssd1306_printFixedN` —
for each character it either skips it (LF/CR) or blits its scaled glyph at
the running x position and the snapped page row, advancing x by
glyphWidth*(factor+1); returns the final state, the final x position and
the count of characters processed (spec.md section 4.4). -/
def printFixedGo (f : SFixedFontInfo) (style : EFontStyle) (factor ypage : Nat) :
    List Nat → Nat → Nat → DisplayState → DisplayState × Nat × Nat
  | [], x, cnt, st => (st, x, cnt)
  | ch :: rest, x, cnt, st =>
    if isSkippedChar ch then printFixedGo f style factor ypage rest x (cnt + 1) st
    else
      printFixedGo f style factor ypage rest (x + f.glyphWidth * (factor + 1))
        (cnt + 1)
        (ssd1306_drawBuffer x ypage (f.glyphWidth * (factor + 1))
          (f.glyphHeight * (factor + 1)) (scaledGlyphBuf f style ch factor) st)

/-- Modelled from the spec: `ssd1306_printFixedN(xpos, y, ch, style, factor)`
prints text scaled by 2^factor; y is coerced down to the nearest multiple
of 8 (the page boundary y/8) before rendering (header lines 117-136,
spec.md section 4.4); body not under src/. -/
def ssd1306_printFixedN (f : SFixedFontInfo) (xpos y : Nat) (text : List Nat)
    (style : EFontStyle) (factor : Nat) (st : DisplayState) :
    DisplayState × Nat × Nat :=
  printFixedGo f style factor (y / 8) text xpos 0 st

/-- A concrete 6x8 font used by witnesses. -/
def testFont : SFixedFontInfo :=
  { glyphWidth := 6, glyphHeight := 8, glyphData := fun _ _ _ => 0 }

/-- The SAppMenu structure of the header (lines 404-416): menu items, item
count, current selection, last-rendered selection and scroll position. -/
structure SAppMenu where
  items : List String
  count : Nat
  selection : Nat
  oldSelection : Nat
  scrollPosition : Nat
  deriving DecidableEq, Repr

/-- Modelled from the spec: `ssd1306_menuDown` moves the selection down by
one item — selection becomes (selection+1) mod count; if the new selection
leaves the visible window the scroll position advances by one row, and
wrapping from the last item to the first resets the scroll position to 0
(header lines 491-498, spec.md section 4.6); body not under src/. -/
def ssd1306_menuDown (visibleRows : Nat) (m : SAppMenu) : SAppMenu :=
  if m.selection + 1 < m.count then
    { m with
      selection := m.selection + 1
      scrollPosition :=
        if m.scrollPosition + visibleRows ≤ m.selection + 1 then
          m.scrollPosition + 1
        else m.scrollPosition }
  else { m with selection := 0, scrollPosition := 0 }

/-- The 5-item menu of the spec's scenario, at initial selection 0. -/
def demoMenu : SAppMenu :=
  { items := ["item1", "item2", "item3", "item4", "item5"]
    count := 5
    selection := 0
    oldSelection := 0
    scrollPosition := 0 }

/-- The SPRITE structure of nano_gfx_types.h (not under src/), modelled
from the spec: current position (x, y), width w, height fixed at 8 pixels,
last-rendered position (lx, ly) and the image data reference (spec.md
section 3). -/
structure SPRITE where
  x : Nat
  y : Nat
  w : Nat
  lx : Nat
  ly : Nat
  data : Nat → Nat

/-- The pages and columns covered by a w-wide, 8-tall sprite box whose
top-left pixel is (sx, sy): pages sy/8..(sy+7)/8, columns sx..sx+w-1. -/
def spriteCovers (sx sy w p c : Nat) : Prop :=
  sy / 8 ≤ p ∧ p ≤ (sy + 7) / 8 ∧ sx ≤ c ∧ c < sx + w

instance (sx sy w p c : Nat) : Decidable (spriteCovers sx sy w p c) :=
  inferInstanceAs (Decidable (_ ∧ _ ∧ _ ∧ _))

/-- Modelled from the spec: `ssd1306_eraseTrace(sprite)` clears only the
rectangular delta between the sprite's previous and current position — the
part of the old bounding box not covered by the new one (header lines
373-377, spec.md section 4.5); body not under src/. -/
def ssd1306_eraseTrace (s : SPRITE) (st : DisplayState) : DisplayState :=
  { st with
    mem := fun p c =>
      if spriteCovers s.lx s.ly s.w p c ∧ ¬spriteCovers s.x s.y s.w p c then 0
      else st.mem p c }

/-- The spec's scenario sprite: 10 pixels wide, previously at (10, 5), now
at (20, 5). -/
def traceSprite : SPRITE :=
  { x := 20, y := 5, w := 10, lx := 10, ly := 5, data := fun _ => 0 }

end SSD1306

namespace SSD1306

/-- C1: for every in-bounds pixel (x, y) and any prior display contents,
`ssd1306_putPixel` in the default Positive draw mode writes to column x,
page y/8 a byte whose bit at position y%8 is set and whose other 7 bits are
cleared (the destructive-write property), leaving every other byte of
display memory unchanged. -/
theorem putPixel_destructive_write (st : DisplayState) (x y : Nat)
    (hx : x < st.geom.width) (hy : y < st.geom.height)
    (hm : st.mode = EDrawMode.Positive) :
    (∀ b : Nat, ((ssd1306_putPixel x y st).mem (y / 8) x).testBit b ↔ b = y % 8) ∧
    (∀ p c, ¬(p = y / 8 ∧ c = x) → (ssd1306_putPixel x y st).mem p c = st.mem p c) := by
  constructor
  · intro b
    have hlt : (1 <<< (y % 8)) % 256 = 2 ^ (y % 8) := by
      rw [Nat.shiftLeft_eq, one_mul]
      exact Nat.mod_eq_of_lt (Nat.pow_lt_pow_right (by omega) (Nat.mod_lt y (by omega)))
    simp only [ssd1306_putPixel, writeColumn, ssd1306_setPos, applyMode, hm]
    simp only [and_self, if_pos, hlt]
    constructor
    · intro hbit
      by_contra hne
      rw [Nat.testBit_two_pow_of_ne (fun h => hne h.symm)] at hbit
      exact Bool.false_ne_true hbit
    · intro hb
      rw [hb, Nat.testBit_two_pow_self]
  · intro p c hpc
    simp only [ssd1306_putPixel, writeColumn, ssd1306_setPos]
    rw [if_neg hpc]

/-- Witness for C1 at (x, y) = (10, 13) on the concrete 128x64 state. -/
theorem putPixel_destructive_write_witness :
    ((ssd1306_putPixel 10 13 initState).mem 1 10).testBit 5 ↔ 5 = 13 % 8 :=
  (putPixel_destructive_write initState 10 13 (by decide) (by decide) rfl).1 5

/-- C2: with the draw mode switched to Negative, `writeColumn` transmits
the bitwise inverse of its byte argument (in particular 0b10110000 becomes
0b01001111), and after switching back to Positive the same call transmits
the original byte unmodified, for every input byte. -/
theorem writeColumn_mode_roundtrip (st : DisplayState) (b : Nat) (hb : b < 256) :
    (writeColumn b (ssd1306_negativeMode st)).mem st.curPage st.curX = Nat.xor b 255 ∧
    (writeColumn b (ssd1306_positiveMode (ssd1306_negativeMode st))).mem st.curPage st.curX = b ∧
    (writeColumn 0b10110000 (ssd1306_negativeMode st)).mem st.curPage st.curX = 0b01001111 := by
  have hmod : b % 256 = b := Nat.mod_eq_of_lt hb
  refine ⟨?_, ?_, ?_⟩
  · simp [writeColumn, ssd1306_negativeMode, applyMode, invertByte, hmod]
  · simp [writeColumn, ssd1306_negativeMode, ssd1306_positiveMode, applyMode, hmod]
  · simp only [writeColumn, ssd1306_negativeMode, applyMode, invertByte]
    simp only [and_self, if_pos]
    decide

/-- Witness for C2 at the spec's byte 0b10110000 on the concrete state. -/
theorem writeColumn_mode_roundtrip_witness :
    (writeColumn 0b10110000 (ssd1306_negativeMode initState)).mem
      initState.curPage initState.curX = Nat.xor 0b10110000 255 :=
  (writeColumn_mode_roundtrip initState 0b10110000 (by decide)).1

/-- C9: `ssd1306_clearScreen` is equivalent to `ssd1306_fillScreen 0`: the
two calls produce identical device state from any starting state, and both
leave every in-bounds byte of display memory equal to zero. -/
theorem clearScreen_eq_fillScreen_zero (st : DisplayState) :
    ssd1306_clearScreen st = ssd1306_fillScreen 0 st ∧
    (∀ p c, p < st.geom.pages → c < st.geom.width →
      (ssd1306_clearScreen st).mem p c = 0 ∧ (ssd1306_fillScreen 0 st).mem p c = 0) := by
  constructor
  · simp [ssd1306_clearScreen, ssd1306_fillScreen]
  · intro p c hp hc
    constructor <;> simp [ssd1306_clearScreen, ssd1306_fillScreen, hp, hc]

/-- Witness for C9 at page 0, column 0 of the concrete 128x64 state. -/
theorem clearScreen_eq_fillScreen_zero_witness :
    (ssd1306_clearScreen initState).mem 0 0 = 0 :=
  ((clearScreen_eq_fillScreen_zero initState).2 0 0 (by decide) (by decide)).1

/-- The midpoint rounding starts at offset zero. -/
theorem lineStep_zero (num den : Nat) : lineStep num den 0 = 0 := by
  unfold lineStep
  have h : 2 * 0 * num + den = den := by ring
  rw [h]
  rcases Nat.eq_zero_or_pos den with h0 | h0
  · subst h0; rfl
  · exact Nat.div_eq_of_lt (by omega)

/-- After all `den` major-axis steps the midpoint rounding reaches the full
minor delta `num`. -/
theorem lineStep_last (num den : Nat) (h : 0 < den) : lineStep num den den = num := by
  unfold lineStep
  have e : 2 * den * num + den = den + 2 * den * num := by ring
  rw [e, Nat.add_mul_div_left _ _ (by omega : 0 < 2 * den),
    Nat.div_eq_of_lt (by omega), Nat.zero_add]

/-- The first traced pixel is the start point. -/
theorem linePoint_zero (x1 y1 x2 y2 : Int) : linePoint x1 y1 x2 y2 0 = (x1, y1) := by
  unfold linePoint
  simp [lineStep_zero]

/-- The last traced pixel is the end point. -/
theorem linePoint_last (x1 y1 x2 y2 : Int) :
    linePoint x1 y1 x2 y2 (max (x2 - x1).natAbs (y2 - y1).natAbs) = (x2, y2) := by
  unfold linePoint
  rcases le_or_lt (y2 - y1).natAbs (x2 - x1).natAbs with h | h
  · rw [if_pos h, Nat.max_eq_left h]
    rcases Nat.eq_zero_or_pos (x2 - x1).natAbs with h0 | h0
    · rw [h0, lineStep_zero]
      simp only [Prod.mk.injEq, Nat.cast_zero]
      constructor <;> split <;> omega
    · rw [lineStep_last _ _ h0]
      simp only [Prod.mk.injEq]
      constructor <;> split <;> omega
  · rw [if_neg (not_le.mpr h), Nat.max_eq_right (Nat.le_of_lt h),
      lineStep_last _ _ (by omega)]
    simp only [Prod.mk.injEq]
    constructor <;> split <;> omega

/-- The start point is among the traced pixels. -/
theorem linePoints_start (x1 y1 x2 y2 : Int) : (x1, y1) ∈ linePoints x1 y1 x2 y2 := by
  unfold linePoints
  exact List.mem_map.mpr ⟨0, List.mem_range.mpr (by omega), linePoint_zero x1 y1 x2 y2⟩

/-- The end point is among the traced pixels. -/
theorem linePoints_last (x1 y1 x2 y2 : Int) : (x2, y2) ∈ linePoints x1 y1 x2 y2 := by
  unfold linePoints
  exact List.mem_map.mpr
    ⟨max (x2 - x1).natAbs (y2 - y1).natAbs, List.mem_range.mpr (by omega),
      linePoint_last x1 y1 x2 y2⟩

/-- C3: line drawing is direction-independent: `ssd1306_drawHLine` produces
identical device output with its endpoints swapped, and the pixels traced
by `ssd1306_drawLine` include both endpoint pixels in either argument
order, including when x1 > x2 or y1 > y2. -/
theorem line_direction_independence (x1 y1 x2 : Nat) (st : DisplayState)
    (a b c d : Int) :
    ssd1306_drawHLine x1 y1 x2 st = ssd1306_drawHLine x2 y1 x1 st ∧
    (a, b) ∈ linePoints a b c d ∧ (c, d) ∈ linePoints a b c d ∧
    (a, b) ∈ linePoints c d a b ∧ (c, d) ∈ linePoints c d a b := by
  refine ⟨?_, linePoints_start a b c d, linePoints_last a b c d,
    linePoints_last c d a b, linePoints_start c d a b⟩
  simp only [ssd1306_drawHLine, min_comm, max_comm]

/-- C4: drawing any buffer into a region and then clearing the same region
leaves every byte of the region zero, and `ssd1306_clearBlock` (in the
default Positive mode) has the same effect as drawing an all-zero buffer of
the same size at the same position. -/
theorem drawBuffer_clearBlock_erase (st : DisplayState) (x y w h : Nat)
    (buf : Nat → Nat) (hh : h % 8 = 0) :
    (∀ p c, y ≤ p → p < y + h / 8 → x ≤ c → c < x + w →
      (ssd1306_clearBlock x y w h (ssd1306_drawBuffer x y w h buf st)).mem p c = 0) ∧
    (st.mode = EDrawMode.Positive →
      ssd1306_clearBlock x y w h st = ssd1306_drawBuffer x y w h (fun _ => 0) st) := by
  constructor
  · intro p c h1 h2 h3 h4
    simp only [ssd1306_clearBlock, ssd1306_drawBuffer]
    rw [if_pos ⟨h1, h2, h3, h4⟩]
  · intro hm
    simp only [ssd1306_clearBlock, ssd1306_drawBuffer]
    congr 1
    funext p c
    rw [hm]
    simp [applyMode]

/-- Witness for C4 with a nonzero 3x8 buffer drawn then cleared at (2, 1)
on the concrete state. -/
theorem drawBuffer_clearBlock_erase_witness :
    (ssd1306_clearBlock 2 1 3 8
      (ssd1306_drawBuffer 2 1 3 8 (fun _ => 170) initState)).mem 1 2 = 0 :=
  (drawBuffer_clearBlock_erase initState 2 1 3 8 (fun _ => 170) (by decide)).1
    1 2 (by decide) (by decide) (by decide) (by decide)

/-- C8: `ssd1306_drawBufferFast` ignores the global draw mode — its device
output is identical under any two modes, for every buffer and position —
while `ssd1306_drawBuffer` honors Negative mode, as a concrete inverted
byte shows. -/
theorem drawBufferFast_ignores_drawMode (x y w h : Nat) (buf : Nat → Nat)
    (st : DisplayState) :
    (∀ m1 m2 : EDrawMode,
      (ssd1306_drawBufferFast x y w h buf { st with mode := m1 }).mem =
        (ssd1306_drawBufferFast x y w h buf { st with mode := m2 }).mem) ∧
    (ssd1306_drawBuffer 0 0 1 8 (fun _ => 0)
        (ssd1306_negativeMode initState)).mem 0 0 ≠
      (ssd1306_drawBuffer 0 0 1 8 (fun _ => 0)
        (ssd1306_positiveMode initState)).mem 0 0 := by
  constructor
  · intro m1 m2
    rfl
  · decide

/-- C10: `ssd1306_negativeMode` and `ssd1306_positiveMode` modify only the
global draw mode: display memory, the cursor and the geometry are all
unchanged by either call, for every prior display state. -/
theorem mode_switch_frame (st : DisplayState) :
    (ssd1306_negativeMode st).mem = st.mem ∧
    (ssd1306_positiveMode st).mem = st.mem ∧
    (ssd1306_negativeMode st).curX = st.curX ∧
    (ssd1306_negativeMode st).curPage = st.curPage ∧
    (ssd1306_positiveMode st).curX = st.curX ∧
    (ssd1306_positiveMode st).curPage = st.curPage ∧
    (ssd1306_negativeMode st).mode = EDrawMode.Negative ∧
    (ssd1306_positiveMode st).mode = EDrawMode.Positive :=
  ⟨rfl, rfl, rfl, rfl, rfl, rfl, rfl, rfl⟩

/-- The character loop advances x by glyphWidth*(factor+1) per character
and counts every processed character, when no character is skipped. -/
theorem printFixedGo_advance (f : SFixedFontInfo) (style : EFontStyle)
    (factor ypage : Nat) :
    ∀ (text : List Nat) (x cnt : Nat) (st : DisplayState),
      (∀ ch ∈ text, isSkippedChar ch = false) →
      (printFixedGo f style factor ypage text x cnt st).2.1 =
        x + text.length * (f.glyphWidth * (factor + 1)) ∧
      (printFixedGo f style factor ypage text x cnt st).2.2 =
        cnt + text.length := by
  intro text
  induction text with
  | nil => intro x cnt st _; simp [printFixedGo]
  | cons ch rest ih =>
    intro x cnt st h
    have hch : isSkippedChar ch = false := h ch (List.mem_cons_self ch rest)
    have hrest : ∀ c ∈ rest, isSkippedChar c = false :=
      fun c hc => h c (List.mem_cons_of_mem ch hc)
    rw [printFixedGo, hch]
    simp only [Bool.false_eq_true, if_false, List.length_cons]
    obtain ⟨h1, h2⟩ := ih (x + f.glyphWidth * (factor + 1)) (cnt + 1)
      (ssd1306_drawBuffer x ypage (f.glyphWidth * (factor + 1))
        (f.glyphHeight * (factor + 1)) (scaledGlyphBuf f style ch factor) st) hrest
    rw [h1, h2]
    constructor <;> ring

/-- C5: `ssd1306_printFixedN` snaps y down to the nearest multiple of 8 —
a call at y=18 produces exactly the output of a call at y=16, for every x,
text, style and scale factor — and (for text with no skipped control
characters) it advances the text cursor x by glyphWidth*(factor+1) per
character and returns the count of characters processed; in particular a
2-character string at scale factor 0 advances x by exactly 2*glyphWidth. -/
theorem printFixedN_page_snap_advance (f : SFixedFontInfo) (x : Nat)
    (text : List Nat) (style : EFontStyle) (factor : Nat) (st : DisplayState)
    (hskip : ∀ ch ∈ text, isSkippedChar ch = false) :
    ssd1306_printFixedN f x 18 text style factor st =
      ssd1306_printFixedN f x 16 text style factor st ∧
    (ssd1306_printFixedN f x 16 text style factor st).2.1 =
      x + text.length * (f.glyphWidth * (factor + 1)) ∧
    (ssd1306_printFixedN f x 16 text style factor st).2.2 = text.length ∧
    (∀ c1 c2 st', isSkippedChar c1 = false → isSkippedChar c2 = false →
      (ssd1306_printFixedN f x 16 [c1, c2] style 0 st').2.1 =
        x + 2 * f.glyphWidth ∧
      (ssd1306_printFixedN f x 16 [c1, c2] style 0 st').2.2 = 2) := by
  refine ⟨rfl, ?_, ?_, ?_⟩
  · exact (printFixedGo_advance f style factor 2 text x 0 st hskip).1
  · have h2 := (printFixedGo_advance f style factor 2 text x 0 st hskip).2
    show (printFixedGo f style factor 2 text x 0 st).2.2 = text.length
    omega
  · intro c1 c2 st' hc1 hc2
    have h := printFixedGo_advance f style 0 2 [c1, c2] x 0 st' (by
      intro c hc
      rcases List.mem_cons.mp hc with rfl | hc
      · exact hc1
      · rcases List.mem_cons.mp hc with rfl | hc
        · exact hc2
        · cases hc)
    constructor
    · show (printFixedGo f style 0 2 [c1, c2] x 0 st').2.1 = x + 2 * f.glyphWidth
      rw [h.1]
      simp only [List.length_cons, List.length_nil]
      ring
    · show (printFixedGo f style 0 2 [c1, c2] x 0 st').2.2 = 2
      rw [h.2]
      rfl

/-- Witness for C5: printing "AB" (character codes 65, 66) at (10, 16)
with the concrete 6x8 font at scale factor 0 lands the cursor at
10 + 2*6. -/
theorem printFixedN_page_snap_advance_witness :
    (ssd1306_printFixedN testFont 10 16 [65, 66] EFontStyle.Normal 0
      initState).2.2 = [65, 66].length :=
  (printFixedN_page_snap_advance testFont 10 [65, 66] EFontStyle.Normal 0
    initState (by decide)).2.2.1

/-- C6: `ssd1306_menuDown` sets the selection to (selection+1) mod count
and resets the scroll position to 0 when wrapping from the last item to the
first; on the spec's 5-item menu with 3 visible rows, four consecutive
calls yield selections 1, 2, 3, 4 and a fifth call wraps to selection 0
with scroll position 0. -/
theorem menuDown_step_wrap (visibleRows : Nat) (m : SAppMenu)
    (h : m.selection < m.count) :
    ((ssd1306_menuDown visibleRows m).selection = (m.selection + 1) % m.count ∧
     (m.selection + 1 = m.count →
       (ssd1306_menuDown visibleRows m).scrollPosition = 0)) ∧
    ((ssd1306_menuDown 3 demoMenu).selection = 1 ∧
     (ssd1306_menuDown 3 (ssd1306_menuDown 3 demoMenu)).selection = 2 ∧
     (ssd1306_menuDown 3 (ssd1306_menuDown 3
        (ssd1306_menuDown 3 demoMenu))).selection = 3 ∧
     (ssd1306_menuDown 3 (ssd1306_menuDown 3 (ssd1306_menuDown 3
        (ssd1306_menuDown 3 demoMenu)))).selection = 4 ∧
     (ssd1306_menuDown 3 (ssd1306_menuDown 3 (ssd1306_menuDown 3
        (ssd1306_menuDown 3 (ssd1306_menuDown 3 demoMenu))))).selection = 0 ∧
     (ssd1306_menuDown 3 (ssd1306_menuDown 3 (ssd1306_menuDown 3
        (ssd1306_menuDown 3 (ssd1306_menuDown 3 demoMenu))))).scrollPosition
       = 0) := by
  constructor
  · constructor
    · unfold ssd1306_menuDown
      split
      · next hlt => exact (Nat.mod_eq_of_lt hlt).symm
      · next hge =>
        have he : m.selection + 1 = m.count := by omega
        rw [he, Nat.mod_self]
    · intro he
      unfold ssd1306_menuDown
      rw [if_neg (by omega)]
  · decide

/-- Witness for C6: one step down from the demo menu's selection 0. -/
theorem menuDown_step_wrap_witness :
    (ssd1306_menuDown 3 demoMenu).selection =
      (demoMenu.selection + 1) % demoMenu.count :=
  (menuDown_step_wrap 3 demoMenu (by decide)).1.1

/-- C7: on the spec's sprite previously at (10, 5) and now at (20, 5),
`ssd1306_eraseTrace` clears exactly the vacated strip — columns 10..19 on
the sprite's page rows (pages 0 and 1) — and leaves columns 20..29 (the new
position) unchanged; in general it clears nothing outside the part of the
old bounding box not covered by the new one. -/
theorem eraseTrace_delta (st : DisplayState) (p c : Nat) (s : SPRITE) :
    (p ≤ 1 → 10 ≤ c → c < 20 →
      (ssd1306_eraseTrace traceSprite st).mem p c = 0) ∧
    (20 ≤ c → c < 30 →
      (ssd1306_eraseTrace traceSprite st).mem p c = st.mem p c) ∧
    (¬(spriteCovers s.lx s.ly s.w p c ∧ ¬spriteCovers s.x s.y s.w p c) →
      (ssd1306_eraseTrace s st).mem p c = st.mem p c) := by
  refine ⟨?_, ?_, ?_⟩
  · intro hp h1 h2
    simp only [ssd1306_eraseTrace, traceSprite, spriteCovers]
    rw [if_pos]
    refine ⟨⟨by omega, by omega, h1, h2⟩, ?_⟩
    rintro ⟨-, -, h20, -⟩
    omega
  · intro h1 h2
    simp only [ssd1306_eraseTrace, traceSprite, spriteCovers]
    rw [if_neg]
    rintro ⟨⟨-, -, -, hc⟩, -⟩
    omega
  · intro hn
    simp only [ssd1306_eraseTrace]
    rw [if_neg hn]

/-- Witness for C7 at page 0, column 15 (inside the vacated strip) and
column 25 (inside the new position). -/
theorem eraseTrace_delta_witness :
    (ssd1306_eraseTrace traceSprite initState).mem 0 15 = 0 ∧
    (ssd1306_eraseTrace traceSprite initState).mem 0 25 =
      initState.mem 0 25 :=
  ⟨(eraseTrace_delta initState 0 15 traceSprite).1 (by decide) (by decide)
      (by decide),
    (eraseTrace_delta initState 0 25 traceSprite).2.1 (by decide) (by decide)⟩

end SSD1306
